import Mathlib

/-!
Shallow embedding of `gulpfile.js` from
michaelschwobe/static-site-gulp-webpack-boilerplate.

The gulpfile is configuration-as-code: a boolean production flag read from
the environment at startup, a table of path strings, plugin configuration
objects, and eight gulp tasks (views, media, styles, scripts, serve,
views:watch, scripts:watch, watch, clean, default), each of which pipes a
file stream through a fixed, flag-dependent list of plugin stages.

The embedding models:
  * the process environment (`Env`) with the two variables the file reads
    (`NODE_ENV`, `PORT`) plus an arbitrary remainder, so that independence
    from other variables is a provable statement;
  * the path/directory configuration as string constants, by transcribing
    the template-literal concatenations;
  * each task's stream pipeline as a `List Stage`, one constructor per
    `.pipe(...)` call, with the flag-conditioned stages transcribed as
    `if isProd then _ else _` exactly as in the source;
  * the `default` task's `runSequence` call as a list of sequential groups;
  * the plumber error handler as a function from an error message to the
    list of effects it performs;
  * gulp 3 task-dependency semantics (a task's listed dependencies run to
    completion before its body) for the `views:watch` / `scripts:watch`
    tasks, as an event-trace function;
  * glob selection for the `scripts` task's pattern pair over
    segment-decomposed paths, and the `del`-based `clean` task over a
    filesystem given as a list of segment paths.
-/

/-- The process environment as the gulpfile sees it: the two variables it
reads (`NODE_ENV` and `PORT`), plus all other variables, which it never
touches; `none` models an unset variable. -/
structure Env where
  nodeEnv : Option String
  port : Option String
  other : String → Option String

/-- `const isProd = process.env.NODE_ENV === 'production';`
(gulpfile.js line 25): strict string equality against `'production'`;
an unset variable compares unequal. -/
def isProd (env : Env) : Bool :=
  env.nodeEnv == some "production"

/-- `dirs.entry` (gulpfile.js line 30). -/
def dirs_entry : String := "src"

/-- `dirs.output` (gulpfile.js line 31). -/
def dirs_output : String := "build"

/-- `paths.views.src` = `` `${dirs.entry}/views/**/*` `` (line 38). -/
def paths_views_src : String := dirs_entry ++ "/views/**/*"

/-- `paths.views.dest` = `` `${dirs.output}` `` (line 39). -/
def paths_views_dest : String := dirs_output

/-- `paths.media.src` (line 42). -/
def paths_media_src : String := dirs_entry ++ "/media/**/*.+(gif|jpg|jpeg|png|svg)"

/-- `paths.media.dest` (line 43). -/
def paths_media_dest : String := dirs_output ++ "/static/media"

/-- `paths.styles.src` (line 46). -/
def paths_styles_src : String := dirs_entry ++ "/styles/**/*.+(css|scss)"

/-- `paths.styles.dest` (line 47). -/
def paths_styles_dest : String := dirs_output ++ "/static/styles"

/-- First element of the `paths.scripts.src` array (line 51). -/
def paths_scripts_src0 : String := dirs_entry ++ "/scripts/**/*.js"

/-- Second element of the `paths.scripts.src` array (line 52), a negated
glob: the leading `!` marks it as an exclusion pattern. -/
def paths_scripts_src1 : String := "!" ++ dirs_entry ++ "/scripts/**/*.module.js"

/-- `paths.scripts.src` (lines 50-53). -/
def paths_scripts_src : List String := [paths_scripts_src0, paths_scripts_src1]

/-- `paths.scripts.dest` (line 54). -/
def paths_scripts_dest : String := dirs_output ++ "/static/scripts"

/-- A desktop notification as assembled by `notify.onError` with the
configuration at gulpfile.js lines 84-88; the `<%= error.message %>`
template interpolates the error's message. -/
structure Notification where
  title : String
  message : String
  sound : String
deriving DecidableEq

/-- Observable actions of the plumber error handler.  `retry` is included
so that its absence from the handler's effect list is statable; the source
contains no retry logic. -/
inductive HandlerEffect where
  | notifyDesktop (n : Notification)
  | emitEnd
  | retry
deriving DecidableEq

/-- `pluginConfig.plumber.errorHandler` (gulpfile.js lines 82-91): build
the notification via `notify.onError({title: 'Compile Error', message:
'<%= error.message %>', sound: 'Funk'})`, then `this.emit('end')` so the
stream continues. -/
def plumberErrorHandler (errorMessage : String) : List HandlerEffect :=
  [HandlerEffect.notifyDesktop ⟨"Compile Error", errorMessage, "Funk"⟩,
   HandlerEffect.emitEnd]

/-- The `pluginConfig.plumber` object (lines 81-92): its one field is the
error handler. -/
structure PlumberConfig where
  errorHandler : String → List HandlerEffect

/-- The single plumber configuration object every task passes to
`plumber(...)`. -/
def pluginConfig_plumber : PlumberConfig :=
  ⟨plumberErrorHandler⟩

/-- The JavaScript value `process.env.PORT || 3000` (line 63): `PORT` is a
string when set; an unset or empty (falsy) string falls back to the
number 3000. -/
def pluginConfig_browserSync_port (env : Env) : String ⊕ Nat :=
  match env.port with
  | some v => if v == "" then Sum.inr 3000 else Sum.inl v
  | none => Sum.inr 3000

/-- `pluginConfig.browserSync` (lines 62-65). -/
structure BrowserSyncConfig where
  port : String ⊕ Nat
  server_baseDir : String
deriving DecidableEq

/-- The browserSync configuration value built from the environment. -/
def pluginConfig_browserSync (env : Env) : BrowserSyncConfig :=
  ⟨pluginConfig_browserSync_port env, dirs_output⟩

/-- `pluginConfig.webpack` (lines 98-110): the two flag-dependent entries,
`devtool` and the presence of the babel-minify plugin. -/
structure WebpackConfig where
  devtool : String
  minifyPluginInstalled : Bool
deriving DecidableEq

/-- The webpack configuration value: `devtool: isProd ? 'cheap-source-map'
: 'cheap-eval-source-map'`, `plugins: isProd ? [new MinifyPlugin(...)] : []`. -/
def pluginConfig_webpack (env : Env) : WebpackConfig :=
  ⟨if isProd env then "cheap-source-map" else "cheap-eval-source-map",
   isProd env⟩

/-- One `.pipe(...)` stage (or the initial `gulp.src`) of a task stream.
Each constructor corresponds to one plugin call in the gulpfile. -/
inductive Stage where
  | src (patterns : List String)
  | plumber (cfg : PlumberConfig)
  | noop
  | changed (dest : String)
  | imagemin
  | sourcemapsInit
  | sass
  | autoprefixer
  | cleanCSS
  | sourcemapsWrite (dest : String)
  | named
  | webpack (cfg : WebpackConfig)
  | dest (d : String)
  | browserSyncStream

/-- The `views` task's stream (gulpfile.js lines 121-132). -/
def viewsPipeline (env : Env) : List Stage :=
  [Stage.src [paths_views_src],
   Stage.plumber pluginConfig_plumber,
   if isProd env then Stage.noop else Stage.changed paths_views_dest,
   Stage.dest paths_views_dest]

/-- The `media` task's stream (lines 138-155). -/
def mediaPipeline (env : Env) : List Stage :=
  [Stage.src [paths_media_src],
   Stage.plumber pluginConfig_plumber,
   if isProd env then Stage.noop else Stage.changed paths_media_dest,
   if isProd env then Stage.imagemin else Stage.noop,
   Stage.dest paths_media_dest,
   if isProd env then Stage.noop else Stage.browserSyncStream]

/-- The `styles` task's stream (lines 161-186). -/
def stylesPipeline (env : Env) : List Stage :=
  [Stage.src [paths_styles_src],
   Stage.plumber pluginConfig_plumber,
   if isProd env then Stage.noop else Stage.changed paths_styles_dest,
   Stage.sourcemapsInit,
   Stage.sass,
   Stage.autoprefixer,
   if isProd env then Stage.cleanCSS else Stage.noop,
   Stage.sourcemapsWrite ".",
   Stage.dest paths_styles_dest,
   if isProd env then Stage.noop else Stage.browserSyncStream]

/-- The `scripts` task's stream (lines 192-204). -/
def scriptsPipeline (env : Env) : List Stage :=
  [Stage.src paths_scripts_src,
   Stage.plumber pluginConfig_plumber,
   Stage.named,
   Stage.webpack (pluginConfig_webpack env),
   Stage.dest paths_scripts_dest]

/-- The `compile` array of the `default` task (line 251). -/
def compileGroup : List String :=
  ["views", "media", "styles", "scripts"]

/-- The `default` task's `runSequence` argument list (lines 250-259):
each element is a group of tasks started together; groups run strictly in
order.  Production: `runSequence('clean', compile, callback)`.
Development: `runSequence('clean', compile, 'serve', 'watch', callback)`. -/
def defaultSequence (env : Env) : List (List String) :=
  if isProd env then
    [["clean"], compileGroup]
  else
    [["clean"], compileGroup, ["serve"], ["watch"]]

/-- Observable events in a gulp 3 task execution trace. -/
inductive Ev where
  | runBody (task : String)
  | taskDone (task : String)
  | reload
  | callDone
deriving DecidableEq

/-- A gulp 3 task as declared by `gulp.task(name, deps, body)`: a list of
dependency task names and a body trace. -/
structure GulpTask where
  deps : List String
  body : List Ev

/-- gulp 3 dependency semantics, as relied on by the source comments
"Ensures the 'views'/'scripts' task is complete before reloading
browsers.": every listed dependency runs its body to completion (its
events followed by its completion event) before the task's own body. -/
def execTask (depBody : String → List Ev) (t : GulpTask) : List Ev :=
  (t.deps.flatMap fun d => depBody d ++ [Ev.taskDone d]) ++ t.body

/-- The body trace of a plain pipeline task invoked as a dependency:
it runs its stream pipeline. -/
def pipelineBody (name : String) : List Ev :=
  [Ev.runBody name]

/-- `gulp.task('views:watch', ['views'], done => { browserSync.reload();
done(); })` (gulpfile.js lines 219-222). -/
def viewsWatchTask : GulpTask :=
  ⟨["views"], [Ev.reload, Ev.callDone]⟩

/-- `gulp.task('scripts:watch', ['scripts'], done => {
browserSync.reload(); done(); })` (lines 225-228). -/
def scriptsWatchTask : GulpTask :=
  ⟨["scripts"], [Ev.reload, Ev.callDone]⟩

/-- The execution trace of the `views:watch` task. -/
def viewsWatchTrace : List Ev :=
  execTask pipelineBody viewsWatchTask

/-- The execution trace of the `scripts:watch` task. -/
def scriptsWatchTrace : List Ev :=
  execTask pipelineBody scriptsWatchTask

/-- Whether `pre` is a leading substring of `s`, over the character
sequences (kernel-reducible counterpart of `String.startsWith`). -/
def strStartsWith (s pre : String) : Bool :=
  List.isPrefixOf pre.data s.data

/-- Whether `suf` is a trailing substring of `s`, over the character
sequences (kernel-reducible counterpart of `String.endsWith`). -/
def strEndsWith (s suf : String) : Bool :=
  List.isSuffixOf suf.data s.data

/-- Whether character `c` occurs in `s`. -/
def strContainsChar (s : String) (c : Char) : Bool :=
  s.data.contains c

/-- Drop the first `n` characters of `s`. -/
def strDrop (s : String) (n : Nat) : String :=
  ⟨s.data.drop n⟩

/-- Split a character list into the chunks separated by character `c`. -/
def splitChar (c : Char) : List Char → List (List Char)
  | [] => [[]]
  | x :: xs =>
    if x = c then
      [] :: splitChar c xs
    else
      match splitChar c xs with
      | [] => [[x]]
      | g :: gs => (x :: g) :: gs

/-- Match one non-`**` glob segment against one path segment, for the
segment shapes appearing in the gulpfile's script patterns: a leading `*`
matches any stem followed by the remaining literal suffix; any other
segment is a literal. -/
def segMatch (pat seg : String) : Bool :=
  if strStartsWith pat "*" then strEndsWith seg (strDrop pat 1)
  else pat == seg

/-- Glob matching of a segment-decomposed pattern against a
segment-decomposed path: `**` matches any number (zero or more) of path
segments — equivalently, the remaining pattern must match some suffix of
the path — and any other pattern segment matches exactly one path segment
via `segMatch`. -/
def globMatch : List String → List String → Bool
  | [], segs => segs.isEmpty
  | p :: ps, segs =>
    if p == "**" then
      segs.tails.any fun rest => globMatch ps rest
    else
      match segs with
      | [] => false
      | s :: rest => segMatch p s && globMatch ps rest

/-- Split a glob pattern string on `/` into its segments. -/
def globSegments (pat : String) : List String :=
  (splitChar '/' pat.data).map fun cs => ⟨cs⟩

/-- Modelled from the spec: `gulp.src` glob selection for a pattern list
containing `!`-negated exclusion patterns (the selection mechanism itself
lives in the gulp library, not in this repository).  A path is selected
iff it matches some positive pattern and matches no negated pattern. -/
def gulpSrcSelects (patterns : List String) (path : List String) : Bool :=
  (patterns.any fun p =>
    !(strStartsWith p "!") && globMatch (globSegments p) path) &&
  (patterns.all fun p =>
    !(strStartsWith p "!") || !(globMatch (globSegments (strDrop p 1)) path))

/-- The `scripts` task's input selection: `gulp.src(paths.scripts.src)`
(gulpfile.js line 195) applied to a segment-decomposed candidate path. -/
def scriptsSelects (path : List String) : Bool :=
  gulpSrcSelects paths_scripts_src path

/-- `gulp.task('clean', () => del([dirs.output]))` (line 244): the glob
list handed to `del`. -/
def cleanTargets : List String := [dirs_output]

/-- Modelled from the spec: `del` ("Deletes the output folder.") removes
exactly the paths lying in or under a directory named by one of its
targets; paths are segment-decomposed. -/
def delRemoves (targets : List String) (path : List String) : Bool :=
  targets.any fun t => path.head? == some t

/-- The effect of the `clean` task on a filesystem given as a list of
segment-decomposed paths: paths removed by `del` are gone, all others are
untouched. -/
def runClean (fs : List (List String)) : List (List String) :=
  fs.filter fun p => !(delRemoves cleanTargets p)

/-- The plumber configurations installed along a pipeline, in order. -/
def plumbersOf (l : List Stage) : List PlumberConfig :=
  l.filterMap fun s =>
    match s with
    | Stage.plumber cfg => some cfg
    | _ => none

/-- A sample production environment: `NODE_ENV=production`, `PORT` unset. -/
def prodEnv : Env :=
  ⟨some "production", none, fun _ => none⟩

/-- A sample development environment: `NODE_ENV` unset, `PORT=8080`. -/
def devEnv : Env :=
  ⟨none, some "8080", fun _ => none⟩

/-! ## Helper lemmas about the glob matcher -/

lemma globMatch_nil_pat (segs : List String) : globMatch [] segs = segs.isEmpty := by
  cases segs <;> rfl

lemma globMatch_cons_lit (p : String) (hp : (p == "**") = false) (ps : List String)
    (s : String) (rest : List String) :
    globMatch (p :: ps) (s :: rest) = (segMatch p s && globMatch ps rest) := by
  simp [globMatch, hp]

lemma globMatch_cons_lit_nil (p : String) (hp : (p == "**") = false) (ps : List String) :
    globMatch (p :: ps) [] = false := by
  simp [globMatch, hp]

lemma globMatch_dstar_unfold (ps segs : List String) :
    globMatch ("**" :: ps) segs = segs.tails.any fun rest => globMatch ps rest := by
  simp [globMatch]

lemma globMatch_single (pat : String) (hp : (pat == "**") = false) (rest : List String) :
    globMatch [pat] rest = true ↔ ∃ nm, rest = [nm] ∧ segMatch pat nm = true := by
  cases rest with
  | nil => simp [globMatch_cons_lit_nil pat hp]
  | cons s r2 =>
    rw [globMatch_cons_lit pat hp]
    simp [globMatch_nil_pat, List.isEmpty_iff]
    aesop

lemma globMatch_dstar (pat : String) (hp : (pat == "**") = false) (segs : List String) :
    globMatch ["**", pat] segs = true ↔
      ∃ mid nm, segs = mid ++ [nm] ∧ segMatch pat nm = true := by
  rw [globMatch_dstar_unfold]
  rw [List.any_eq_true]
  constructor
  · rintro ⟨rest, hmem, hrest⟩
    rcases (globMatch_single pat hp rest).mp hrest with ⟨nm, rfl, hnm⟩
    rcases (List.mem_tails _ _).mp hmem with ⟨mid, hmid⟩
    exact ⟨mid, nm, hmid.symm, hnm⟩
  · rintro ⟨mid, nm, rfl, hnm⟩
    refine ⟨[nm], ?_, (globMatch_single pat hp [nm]).mpr ⟨nm, rfl, hnm⟩⟩
    exact (List.mem_tails _ _).mpr ⟨mid, rfl⟩

lemma segMatch_lit (pat seg : String) (hp : strStartsWith pat "*" = false) :
    segMatch pat seg = true ↔ seg = pat := by
  simp only [segMatch, hp, Bool.false_eq_true, if_false, beq_iff_eq]
  exact eq_comm

lemma globMatch_scripts_shape (pat : String) (hp : (pat == "**") = false)
    (segs : List String) :
    globMatch ["src", "scripts", "**", pat] segs = true ↔
      ∃ mid nm, segs = "src" :: "scripts" :: (mid ++ [nm]) ∧ segMatch pat nm = true := by
  cases segs with
  | nil =>
    rw [globMatch_cons_lit_nil "src" (by decide)]
    simp
  | cons a tail =>
    rw [globMatch_cons_lit "src" (by decide)]
    cases tail with
    | nil =>
      rw [globMatch_cons_lit_nil "scripts" (by decide)]
      simp
    | cons b tail2 =>
      rw [globMatch_cons_lit "scripts" (by decide)]
      simp only [Bool.and_eq_true]
      rw [segMatch_lit "src" a (by decide), segMatch_lit "scripts" b (by decide),
        globMatch_dstar pat hp]
      constructor
      · rintro ⟨rfl, rfl, mid, nm, rfl, hnm⟩
        exact ⟨mid, nm, rfl, hnm⟩
      · rintro ⟨mid, nm, heq, hnm⟩
        obtain ⟨rfl, rfl, rfl⟩ : a = "src" ∧ b = "scripts" ∧ tail2 = mid ++ [nm] := by
          simpa using heq
        exact ⟨rfl, rfl, mid, nm, rfl, hnm⟩

lemma segMatch_js (nm : String) : segMatch "*.js" nm = strEndsWith nm ".js" := by
  have h1 : strStartsWith "*.js" "*" = true := by decide
  have h2 : strDrop "*.js" 1 = ".js" := by decide
  simp [segMatch, h1, h2]

lemma segMatch_modjs (nm : String) :
    segMatch "*.module.js" nm = strEndsWith nm ".module.js" := by
  have h1 : strStartsWith "*.module.js" "*" = true := by decide
  have h2 : strDrop "*.module.js" 1 = ".module.js" := by decide
  simp [segMatch, h1, h2]

lemma scriptsSelects_eq_globs (segs : List String) :
    scriptsSelects segs =
      (globMatch ["src", "scripts", "**", "*.js"] segs &&
        !(globMatch ["src", "scripts", "**", "*.module.js"] segs)) := by
  have h0 : strStartsWith paths_scripts_src0 "!" = false := by decide
  have h1 : strStartsWith paths_scripts_src1 "!" = true := by decide
  have h2 : globSegments paths_scripts_src0 = ["src", "scripts", "**", "*.js"] := by decide
  have h3 : globSegments (strDrop paths_scripts_src1 1) =
      ["src", "scripts", "**", "*.module.js"] := by decide
  simp [scriptsSelects, gulpSrcSelects, paths_scripts_src, h0, h1, h2, h3]

/-! ## Claim theorems -/

/-- C1: in every asset-processing pipeline the flag-conditioned stages are
chosen exactly by the production flag: the `cleanCSS` stage of the styles
task and the `imagemin` stage of the media task appear iff the flag is
true, the `changed` pass-through filter (views, media, styles) and the
`browserSync.stream` stage (media, styles) appear iff the flag is false,
and at each conditioned pipeline position the other mode carries a `noop`
stage instead. -/
theorem assetStages_flagged (env : Env) :
    (Stage.cleanCSS ∈ stylesPipeline env ↔ isProd env = true) ∧
    (Stage.imagemin ∈ mediaPipeline env ↔ isProd env = true) ∧
    (Stage.changed paths_views_dest ∈ viewsPipeline env ↔ isProd env = false) ∧
    (Stage.changed paths_media_dest ∈ mediaPipeline env ↔ isProd env = false) ∧
    (Stage.changed paths_styles_dest ∈ stylesPipeline env ↔ isProd env = false) ∧
    (Stage.browserSyncStream ∈ mediaPipeline env ↔ isProd env = false) ∧
    (Stage.browserSyncStream ∈ stylesPipeline env ↔ isProd env = false) ∧
    ((stylesPipeline env)[6]? = some (if isProd env then Stage.cleanCSS else Stage.noop)) ∧
    ((mediaPipeline env)[3]? = some (if isProd env then Stage.imagemin else Stage.noop)) ∧
    ((viewsPipeline env)[2]? =
      some (if isProd env then Stage.noop else Stage.changed paths_views_dest)) ∧
    ((mediaPipeline env)[5]? =
      some (if isProd env then Stage.noop else Stage.browserSyncStream)) := by
  cases h : isProd env <;>
    simp [viewsPipeline, mediaPipeline, stylesPipeline, h]

/-- Witness for C1 at concrete environments: `cleanCSS` is present in the
production styles pipeline and `browserSync.stream` in the development
styles pipeline. -/
theorem assetStages_flagged_witness :
    Stage.cleanCSS ∈ stylesPipeline prodEnv ∧
    Stage.browserSyncStream ∈ stylesPipeline devEnv :=
  ⟨(assetStages_flagged prodEnv).1.mpr rfl,
   (assetStages_flagged devEnv).2.2.2.2.2.2.1.mpr rfl⟩

/-- C2: the `default` task runs a fixed, hard-coded sequence: `clean`
first, then the group of the four compile tasks, followed in development
mode by `serve` and then `watch`; in production mode no group contains
`serve` or `watch`. -/
theorem defaultSequence_spec (env : Env) :
    (isProd env = true →
      defaultSequence env = [["clean"], ["views", "media", "styles", "scripts"]]) ∧
    (isProd env = false →
      defaultSequence env =
        [["clean"], ["views", "media", "styles", "scripts"], ["serve"], ["watch"]]) ∧
    (defaultSequence env).head? = some ["clean"] ∧
    (defaultSequence env)[1]? = some ["views", "media", "styles", "scripts"] ∧
    (isProd env = true → ∀ g ∈ defaultSequence env, "serve" ∉ g ∧ "watch" ∉ g) := by
  cases h : isProd env <;>
    simp [defaultSequence, compileGroup, h]

/-- Witness for C2: the concrete sequences in a production and in a
development environment. -/
theorem defaultSequence_spec_witness :
    defaultSequence prodEnv = [["clean"], ["views", "media", "styles", "scripts"]] ∧
    defaultSequence devEnv =
      [["clean"], ["views", "media", "styles", "scripts"], ["serve"], ["watch"]] :=
  ⟨(defaultSequence_spec prodEnv).1 rfl, (defaultSequence_spec devEnv).2.1 rfl⟩

/-- C3: all four asset-processing pipelines install exactly one plumber
stage, each with the same shared configuration object, whose handler on
any error message produces a desktop notification titled `Compile Error`
carrying the error's message and then emits `end`; it performs no retry. -/
theorem errorHandling_single_callback (env : Env) (msg : String) :
    plumbersOf (viewsPipeline env) = [pluginConfig_plumber] ∧
    plumbersOf (mediaPipeline env) = [pluginConfig_plumber] ∧
    plumbersOf (stylesPipeline env) = [pluginConfig_plumber] ∧
    plumbersOf (scriptsPipeline env) = [pluginConfig_plumber] ∧
    pluginConfig_plumber.errorHandler msg =
      [HandlerEffect.notifyDesktop ⟨"Compile Error", msg, "Funk"⟩,
       HandlerEffect.emitEnd] ∧
    HandlerEffect.retry ∉ pluginConfig_plumber.errorHandler msg := by
  cases h : isProd env <;>
    simp [plumbersOf, viewsPipeline, mediaPipeline, stylesPipeline, scriptsPipeline, h,
      pluginConfig_plumber, plumberErrorHandler]

/-- Witness for C3 at a concrete environment and error message. -/
theorem errorHandling_single_callback_witness :
    plumbersOf (stylesPipeline prodEnv) = [pluginConfig_plumber] ∧
    pluginConfig_plumber.errorHandler "SassError" =
      [HandlerEffect.notifyDesktop ⟨"Compile Error", "SassError", "Funk"⟩,
       HandlerEffect.emitEnd] :=
  ⟨(errorHandling_single_callback prodEnv "SassError").2.2.1,
   (errorHandling_single_callback prodEnv "SassError").2.2.2.2.1⟩

/-- C4: the production flag is true exactly when `NODE_ENV` equals
`production`, and every flag-conditioned value of the gulpfile (all four
pipelines, the webpack configuration and the default sequence) depends on
the environment only through that single flag value. -/
theorem isProd_semantics :
    (∀ env : Env, isProd env = true ↔ env.nodeEnv = some "production") ∧
    (∀ e₁ e₂ : Env, isProd e₁ = isProd e₂ →
      viewsPipeline e₁ = viewsPipeline e₂ ∧ mediaPipeline e₁ = mediaPipeline e₂ ∧
      stylesPipeline e₁ = stylesPipeline e₂ ∧ scriptsPipeline e₁ = scriptsPipeline e₂ ∧
      pluginConfig_webpack e₁ = pluginConfig_webpack e₂ ∧
      defaultSequence e₁ = defaultSequence e₂) := by
  constructor
  · intro env
    simp [isProd]
  · intro e₁ e₂ h
    simp [viewsPipeline, mediaPipeline, stylesPipeline, scriptsPipeline,
      pluginConfig_webpack, defaultSequence, h]

/-- Witness for C4 at concrete environments. -/
theorem isProd_semantics_witness :
    isProd prodEnv = true ∧
    viewsPipeline devEnv = viewsPipeline ⟨none, none, fun _ => none⟩ :=
  ⟨(isProd_semantics.1 prodEnv).mpr rfl,
   (isProd_semantics.2 devEnv ⟨none, none, fun _ => none⟩ rfl).1⟩

/-- C5: the configured filesystem layout: each asset task's input glob
starts under the matching subdirectory of `src`, the media/styles/scripts
outputs go to `build/static/{media,styles,scripts}`, the views output to
`build` itself, and every pipeline begins with its configured input glob
and contains its configured output destination. -/
theorem paths_layout_convention :
    (∃ r, paths_views_src = "src/views/" ++ r) ∧
    (∃ r, paths_media_src = "src/media/" ++ r) ∧
    (∃ r, paths_styles_src = "src/styles/" ++ r) ∧
    (∃ r, paths_scripts_src0 = "src/scripts/" ++ r) ∧
    paths_media_dest = "build/static/media" ∧
    paths_styles_dest = "build/static/styles" ∧
    paths_scripts_dest = "build/static/scripts" ∧
    paths_views_dest = "build" ∧
    (∀ env : Env,
      (viewsPipeline env).head? = some (Stage.src [paths_views_src]) ∧
      (mediaPipeline env).head? = some (Stage.src [paths_media_src]) ∧
      (stylesPipeline env).head? = some (Stage.src [paths_styles_src]) ∧
      (scriptsPipeline env).head? = some (Stage.src paths_scripts_src) ∧
      Stage.dest paths_views_dest ∈ viewsPipeline env ∧
      Stage.dest paths_media_dest ∈ mediaPipeline env ∧
      Stage.dest paths_styles_dest ∈ stylesPipeline env ∧
      Stage.dest paths_scripts_dest ∈ scriptsPipeline env) := by
  refine ⟨⟨"**/*", rfl⟩, ⟨"**/*.+(gif|jpg|jpeg|png|svg)", rfl⟩,
    ⟨"**/*.+(css|scss)", rfl⟩, ⟨"**/*.js", rfl⟩, rfl, rfl, rfl, rfl, ?_⟩
  intro env
  cases h : isProd env <;>
    simp [viewsPipeline, mediaPipeline, stylesPipeline, scriptsPipeline, h]

/-- C6: the development server's port is the `PORT` value when that
variable is set and non-empty, and the number 3000 otherwise; and two
environments agreeing on `NODE_ENV` and `PORT` yield identical
configuration throughout (no other variable has any influence). -/
theorem port_selection (env : Env) :
    (∀ v, env.port = some v → v ≠ "" → pluginConfig_browserSync_port env = Sum.inl v) ∧
    (env.port = none → pluginConfig_browserSync_port env = Sum.inr 3000) ∧
    (env.port = some "" → pluginConfig_browserSync_port env = Sum.inr 3000) ∧
    (∀ e₂ : Env, env.nodeEnv = e₂.nodeEnv → env.port = e₂.port →
      pluginConfig_browserSync env = pluginConfig_browserSync e₂ ∧
      isProd env = isProd e₂ ∧
      pluginConfig_webpack env = pluginConfig_webpack e₂ ∧
      viewsPipeline env = viewsPipeline e₂ ∧
      mediaPipeline env = mediaPipeline e₂ ∧
      stylesPipeline env = stylesPipeline e₂ ∧
      scriptsPipeline env = scriptsPipeline e₂ ∧
      defaultSequence env = defaultSequence e₂) := by
  refine ⟨?_, ?_, ?_, ?_⟩
  · intro v hv hne
    simp [pluginConfig_browserSync_port, hv, hne]
  · intro h
    simp [pluginConfig_browserSync_port, h]
  · intro h
    simp [pluginConfig_browserSync_port, h]
  · intro e₂ hn hp
    have hip : isProd env = isProd e₂ := by simp [isProd, hn]
    simp [pluginConfig_browserSync, pluginConfig_browserSync_port, hp,
      pluginConfig_webpack, viewsPipeline, mediaPipeline, stylesPipeline,
      scriptsPipeline, defaultSequence, hip]

/-- Witness for C6: a set non-empty `PORT` is used verbatim, an unset
`PORT` falls back to 3000, and an environment differing only in other
variables yields the same browserSync configuration. -/
theorem port_selection_witness :
    pluginConfig_browserSync_port devEnv = Sum.inl "8080" ∧
    pluginConfig_browserSync_port prodEnv = Sum.inr 3000 ∧
    pluginConfig_browserSync devEnv =
      pluginConfig_browserSync ⟨none, some "8080", fun v => some v⟩ :=
  ⟨(port_selection devEnv).1 "8080" rfl (by decide),
   (port_selection prodEnv).2.1 rfl,
   ((port_selection devEnv).2.2.2 ⟨none, some "8080", fun v => some v⟩ rfl rfl).1⟩

/-- C7 counterexample: the claim "every configured path string is a
non-empty, slash-free string" is false as stated — the configured
`paths.views.src` value contains a slash character. -/
theorem paths_slashfree_counterexample :
    strContainsChar paths_views_src '/' = true := by
  decide

/-- C7 (amended): every configured path string — the source and output
directory values and all four glob patterns' src and dest values — is
non-empty and has neither a leading nor a trailing slash (the invariant
the source comments actually state). -/
theorem paths_nonempty_no_edge_slash :
    (dirs_entry ≠ "" ∧ strStartsWith dirs_entry "/" = false ∧
      strEndsWith dirs_entry "/" = false) ∧
    (dirs_output ≠ "" ∧ strStartsWith dirs_output "/" = false ∧
      strEndsWith dirs_output "/" = false) ∧
    (paths_views_src ≠ "" ∧ strStartsWith paths_views_src "/" = false ∧
      strEndsWith paths_views_src "/" = false) ∧
    (paths_views_dest ≠ "" ∧ strStartsWith paths_views_dest "/" = false ∧
      strEndsWith paths_views_dest "/" = false) ∧
    (paths_media_src ≠ "" ∧ strStartsWith paths_media_src "/" = false ∧
      strEndsWith paths_media_src "/" = false) ∧
    (paths_media_dest ≠ "" ∧ strStartsWith paths_media_dest "/" = false ∧
      strEndsWith paths_media_dest "/" = false) ∧
    (paths_styles_src ≠ "" ∧ strStartsWith paths_styles_src "/" = false ∧
      strEndsWith paths_styles_src "/" = false) ∧
    (paths_styles_dest ≠ "" ∧ strStartsWith paths_styles_dest "/" = false ∧
      strEndsWith paths_styles_dest "/" = false) ∧
    (paths_scripts_src0 ≠ "" ∧ strStartsWith paths_scripts_src0 "/" = false ∧
      strEndsWith paths_scripts_src0 "/" = false) ∧
    (paths_scripts_src1 ≠ "" ∧ strStartsWith paths_scripts_src1 "/" = false ∧
      strEndsWith paths_scripts_src1 "/" = false) ∧
    (paths_scripts_dest ≠ "" ∧ strStartsWith paths_scripts_dest "/" = false ∧
      strEndsWith paths_scripts_dest "/" = false) := by
  decide

/-- C8: in the execution trace of `views:watch` (resp. `scripts:watch`)
under gulp 3 dependency semantics, any prefix of the trace containing the
`browserSync.reload` event also contains the completion event of the
declared prerequisite task, so reload never happens before the dependency
finishes. -/
theorem watch_reload_after_dep (n : Nat) :
    (Ev.reload ∈ viewsWatchTrace.take n →
      Ev.taskDone "views" ∈ viewsWatchTrace.take n) ∧
    (Ev.reload ∈ scriptsWatchTrace.take n →
      Ev.taskDone "scripts" ∈ scriptsWatchTrace.take n) := by
  have hv : viewsWatchTrace =
      [Ev.runBody "views", Ev.taskDone "views", Ev.reload, Ev.callDone] := by decide
  have hs : scriptsWatchTrace =
      [Ev.runBody "scripts", Ev.taskDone "scripts", Ev.reload, Ev.callDone] := by decide
  rw [hv, hs]
  match n with
  | 0 => simp
  | 1 => simp
  | 2 => simp
  | n + 3 =>
    constructor <;> intro h <;> simp [List.take_succ_cons]

/-- Witness for C8: the three-event prefix of each watch trace contains
the reload event, and the prerequisite's completion event is indeed in
that prefix. -/
theorem watch_reload_after_dep_witness :
    Ev.taskDone "views" ∈ viewsWatchTrace.take 3 ∧
    Ev.taskDone "scripts" ∈ scriptsWatchTrace.take 3 :=
  ⟨(watch_reload_after_dep 3).1 (by decide),
   (watch_reload_after_dep 3).2 (by decide)⟩

/-- C9: the scripts task's input selection over a segment-decomposed path
is exact: a path is selected iff it lies under `src/scripts` and its file
name ends in `.js` but not in `.module.js`; in particular no
`*.module.js` file is ever selected as a bundler entry. -/
theorem scripts_input_selection (segs : List String) :
    scriptsSelects segs = true ↔
      ∃ mid nm, segs = "src" :: "scripts" :: (mid ++ [nm]) ∧
        strEndsWith nm ".js" = true ∧ strEndsWith nm ".module.js" = false := by
  rw [scriptsSelects_eq_globs, Bool.and_eq_true, Bool.not_eq_true',
    globMatch_scripts_shape "*.js" (by decide) segs]
  constructor
  · rintro ⟨⟨mid, nm, rfl, hjs⟩, hnot⟩
    refine ⟨mid, nm, rfl, (segMatch_js nm) ▸ hjs, ?_⟩
    cases hmod : strEndsWith nm ".module.js" with
    | false => rfl
    | true =>
      have hglob : globMatch ["src", "scripts", "**", "*.module.js"]
          ("src" :: "scripts" :: (mid ++ [nm])) = true :=
        (globMatch_scripts_shape "*.module.js" (by decide) _).mpr
          ⟨mid, nm, rfl, by rw [segMatch_modjs]; exact hmod⟩
      rw [hglob] at hnot
      exact Bool.noConfusion hnot
  · rintro ⟨mid, nm, rfl, hjs, hmod⟩
    refine ⟨⟨mid, nm, rfl, by rw [segMatch_js]; exact hjs⟩, ?_⟩
    cases hglob : globMatch ["src", "scripts", "**", "*.module.js"]
        ("src" :: "scripts" :: (mid ++ [nm])) with
    | false => rfl
    | true =>
      rcases (globMatch_scripts_shape "*.module.js" (by decide) _).mp hglob with
        ⟨mid2, nm2, heq, hm2⟩
      have heq2 : mid ++ [nm] = mid2 ++ [nm2] := by simpa using heq
      obtain ⟨-, hnm⟩ := List.append_inj' heq2 (by simp)
      obtain rfl : nm = nm2 := by simpa using hnm
      rw [segMatch_modjs] at hm2
      rw [hm2] at hmod
      exact Bool.noConfusion hmod

/-- Witness for C9: `src/scripts/app.js` is selected (and, for contrast,
the characterisation immediately yields the selection value on it). -/
theorem scripts_input_selection_witness :
    scriptsSelects ["src", "scripts", "app.js"] = true :=
  (scripts_input_selection ["src", "scripts", "app.js"]).mpr
    ⟨[], "app.js", rfl, by decide, by decide⟩

/-- C10: the clean task's deletion predicate holds exactly on paths whose
first segment is the output directory `build`, and every path under the
source directory `src` present in a filesystem survives `runClean`
unchanged. -/
theorem clean_frame (fs : List (List String)) (p : List String) :
    (delRemoves cleanTargets p = true ↔ p.head? = some "build") ∧
    (p ∈ fs → p.head? = some "src" → p ∈ runClean fs) := by
  constructor
  · simp [delRemoves, cleanTargets, dirs_output]
  · intro hmem hsrc
    simp [runClean, List.mem_filter, hmem, delRemoves, cleanTargets, dirs_output, hsrc]

/-- Witness for C10: `build/index.html` is deleted while
`src/views/index.html` survives a concrete clean run. -/
theorem clean_frame_witness :
    delRemoves cleanTargets ["build", "index.html"] = true ∧
    ["src", "views", "index.html"] ∈
      runClean [["build", "index.html"], ["src", "views", "index.html"]] :=
  ⟨(clean_frame [] ["build", "index.html"]).1.mpr rfl,
   (clean_frame [["build", "index.html"], ["src", "views", "index.html"]]
      ["src", "views", "index.html"]).2 (by decide) rfl⟩
